import Mathlib

/-!
Shallow embedding of the project-analyzer core of the Chugagpt offline tool
(`scanner.py` and `analysis_context.py`), together with theorems settling the
frozen claims about it.

Modelling conventions:
* Python strings are Lean `String`s; Python `len` is `String.length`
  (character counts); the Python substring operator `in` is `pyIn`;
  `str.lower()` is `pyLower` (per-character lowercasing).
* The Python `ast` module is an external collaborator: a parsed tree is a
  value of the inductive type `Ast` below, covering exactly the node shapes
  the analyzer inspects (`If`, `For`, `While`, `Try`, `BoolOp`,
  `FunctionDef`, `ClassDef`, `Import`, `ImportFrom`, docstring expression
  statements) plus an `otherNode` constructor for every other node kind,
  which the analyzer only ever traverses through. `ast.walk` is `walk`,
  implemented with the same breadth-first worklist as the library function.
* Filesystem interaction is modelled by a `FileDesc` oracle per file: the
  outcome of `stat` (size or an exception), of reading the text (content or
  an exception, which also covers decode failures), and of `ast.parse`
  (tree or a syntax error). Exceptions are `Except.error`.
* Python floats are modelled by exact rationals (`ℚ`); the numbers the
  analyzer divides are small counts and byte sizes, and no claim depends on
  binary rounding.
-/

set_option maxRecDepth 16384

/-- Python's substring test `needle in hay`. -/
def pyIn (needle hay : String) : Bool :=
  (List.range (hay.data.length + 1)).any (fun i => needle.data.isPrefixOf (hay.data.drop i))

/-- Python's `str.lower()`, per-character lowercasing. -/
def pyLower (s : String) : String := String.mk (s.data.map Char.toLower)

/-- Python's `s[:k]` for an integer bound `k`: a nonnegative `k` takes the
first `k` characters, a negative `k` drops the last `-k` characters. -/
def pySliceTo (s : String) (k : Int) : String :=
  if 0 ≤ k then s.take k.toNat else s.take (s.length - (-k).toNat)

/-- Python's `len(content.splitlines())` for newline-delimited text. -/
def lineCountOf (content : String) : Nat :=
  if content.isEmpty then 0
  else content.data.count '\n' + (if content.data.getLast? = some '\n' then 0 else 1)

/-- The two kinds of short-circuit boolean operator (`ast.And` / `ast.Or`). -/
inductive BoolOpKind where
  | andOp
  | orOp
deriving DecidableEq, Repr

/-- The Python abstract syntax tree, as far as the analyzer inspects it.
Statement lists (`body`, `orelse`, handlers, ...) are lists of child nodes;
`otherNode` stands for any node kind the analyzer does not match on, keeping
only its child nodes so that traversal still sees everything beneath it.
Class base expressions are kept as their source text, which is how
`_analyze_python_file` stores them. -/
inductive Ast where
  | module (body : List Ast)
  | functionDef (name : String) (lineno : Nat) (args : List String) (body : List Ast)
  | classDef (name : String) (lineno : Nat) (bases : List String) (body : List Ast)
  | importStmt (names : List String)
  | importFrom (module : String) (names : List String)
  | ifStmt (test : Ast) (body : List Ast) (orelse : List Ast)
  | forStmt (target : Ast) (iter : Ast) (body : List Ast) (orelse : List Ast)
  | whileStmt (test : Ast) (body : List Ast) (orelse : List Ast)
  | tryStmt (body : List Ast) (handlers : List Ast) (orelse : List Ast) (finalbody : List Ast)
  | boolOp (op : BoolOpKind) (values : List Ast)
  | exprStmt (value : Ast)
  | strLit (value : String)
  | nameExpr (id : String)
  | otherNode (children : List Ast)

/-- Embeds `ast.iter_child_nodes`: the immediate children of a node, in field order. -/
def children : Ast → List Ast
  | .module b => b
  | .functionDef _ _ _ b => b
  | .classDef _ _ _ b => b
  | .importStmt _ => []
  | .importFrom _ _ => []
  | .ifStmt t b e => t :: (b ++ e)
  | .forStmt tg it b e => tg :: it :: (b ++ e)
  | .whileStmt t b e => t :: (b ++ e)
  | .tryStmt b h e f => b ++ h ++ e ++ f
  | .boolOp _ vs => vs
  | .exprStmt v => [v]
  | .strLit _ => []
  | .nameExpr _ => []
  | .otherNode cs => cs

mutual

/-- Number of nodes in a tree (used only to justify that `walk` terminates). -/
def Ast.size : Ast → Nat
  | .module b => 1 + sizeList b
  | .functionDef _ _ _ b => 1 + sizeList b
  | .classDef _ _ _ b => 1 + sizeList b
  | .importStmt _ => 1
  | .importFrom _ _ => 1
  | .ifStmt t b e => 1 + Ast.size t + sizeList b + sizeList e
  | .forStmt tg it b e => 1 + Ast.size tg + Ast.size it + sizeList b + sizeList e
  | .whileStmt t b e => 1 + Ast.size t + sizeList b + sizeList e
  | .tryStmt b h e f => 1 + sizeList b + sizeList h + sizeList e + sizeList f
  | .boolOp _ vs => 1 + sizeList vs
  | .exprStmt v => 1 + Ast.size v
  | .strLit _ => 1
  | .nameExpr _ => 1
  | .otherNode cs => 1 + sizeList cs

/-- Total number of nodes of the trees in a list. -/
def sizeList : List Ast → Nat
  | [] => 0
  | a :: as => Ast.size a + sizeList as

end

theorem sizeList_append (l₁ l₂ : List Ast) : sizeList (l₁ ++ l₂) = sizeList l₁ + sizeList l₂ := by
  induction l₁ with
  | nil => simp [sizeList]
  | cons a as ih => simp [sizeList, ih]; omega

theorem size_eq_children (t : Ast) : Ast.size t = 1 + sizeList (children t) := by
  cases t <;> simp [Ast.size, children, sizeList, sizeList_append] <;> omega

theorem sizeList_workstep (t : Ast) (ts : List Ast) :
    sizeList (ts ++ children t) < sizeList (t :: ts) := by
  simp only [sizeList, sizeList_append]
  have h := size_eq_children t
  omega

/-- The worklist loop of `ast.walk`: pop the front node, yield it, and push
its children at the back of the queue (breadth-first order). -/
def walkGo : List Ast → List Ast
  | [] => []
  | t :: ts => t :: walkGo (ts ++ children t)
termination_by l => sizeList l
decreasing_by
  exact sizeList_workstep _ _

/-- Embeds `ast.walk(node)`: the node itself and all its descendants, breadth-first. -/
def walk (t : Ast) : List Ast := walkGo [t]

/-! ## `ProjectAnalyzer` per-file source analysis (`scanner.py`) -/

/-- Branch constructs of `_calculate_complexity` / `_calculate_function_complexity`:
`ast.If`, `ast.For`, `ast.While`, `ast.Try`. -/
def isBranchNode : Ast → Bool
  | .ifStmt _ _ _ => true
  | .forStmt _ _ _ _ => true
  | .whileStmt _ _ _ => true
  | .tryStmt _ _ _ _ => true
  | _ => false

/-- The `len(node.values) - 1` increment of a short-circuit `and` expression;
`or` expressions and all other nodes contribute `0`. -/
def andValuesCount : Ast → Nat
  | .boolOp .andOp values => values.length - 1
  | _ => 0

/-- One iteration of the loop body of `_calculate_complexity`. -/
def complexityStep (c : Nat) (node : Ast) : Nat :=
  if isBranchNode node then c + 1 else c + andValuesCount node

/-- Embeds `ProjectAnalyzer._calculate_complexity`: file-level cyclomatic complexity. -/
def calculateComplexity (tree : Ast) : Nat :=
  (walk tree).foldl complexityStep 1

/-- One iteration of the loop body of `_calculate_function_complexity`
(no `BoolOp` case in that method). -/
def functionComplexityStep (c : Nat) (node : Ast) : Nat :=
  if isBranchNode node then c + 1 else c

/-- Embeds `ProjectAnalyzer._calculate_function_complexity`. -/
def calculateFunctionComplexity (funcNode : Ast) : Nat :=
  (walk funcNode).foldl functionComplexityStep 1

/-- Whether `ast.get_docstring(node)` is non-`None`: iff the first statement of the
body is a plain string-literal expression. -/
def hasDocstring (body : List Ast) : Bool :=
  match body with
  | .exprStmt (.strLit _) :: _ => true
  | _ => false

/-- The four counters filled by `_check_docstrings`, in the source's key
order `functions`, `classes`, `total_functions`, `total_classes`. -/
structure Docstrings where
  functions : Nat
  classes : Nat
  total_functions : Nat
  total_classes : Nat
deriving DecidableEq, Repr

/-- One iteration of the walk loop of `_check_docstrings`. -/
def docstringStep (acc : Docstrings) (node : Ast) : Docstrings :=
  match node with
  | .functionDef _ _ _ body =>
      { acc with total_functions := acc.total_functions + 1,
                 functions := acc.functions + (if hasDocstring body then 1 else 0) }
  | .classDef _ _ _ body =>
      { acc with total_classes := acc.total_classes + 1,
                 classes := acc.classes + (if hasDocstring body then 1 else 0) }
  | _ => acc

/-- Embeds `ProjectAnalyzer._check_docstrings`. -/
def checkDocstrings (tree : Ast) : Docstrings :=
  (walk tree).foldl docstringStep ⟨0, 0, 0, 0⟩

/-- The flattened import identifiers contributed by one node: an `Import`
yields its alias names, an `ImportFrom` yields `module.name` (or the bare
name when the module is empty). -/
def importNamesOf (node : Ast) : List String :=
  match node with
  | .importStmt names => names
  | .importFrom module names =>
      names.map (fun n => if module = "" then n else module ++ "." ++ n)
  | _ => []

/-- The walk-and-extend loop collecting flattened import identifiers, shared
verbatim by `_analyze_python_file` and `_detect_unused_imports`. -/
def collectImports (tree : Ast) : List String :=
  (walk tree).foldl (fun acc node => acc ++ importNamesOf node) []

/-- The character loop behind Python's `str.split('.')`: accumulate the
current (reversed) segment and cut at every dot. -/
def splitDotGo : List Char → List Char → List String
  | [], cur => [String.mk cur.reverse]
  | c :: cs, cur =>
      if c = '.' then String.mk cur.reverse :: splitDotGo cs []
      else splitDotGo cs (c :: cur)

/-- Python's `imp.split('.')`; always yields at least one segment. -/
def pySplitDot (s : String) : List String := splitDotGo s.data []

/-- Computes `imp.split('.')[-1]`: the last dot-separated segment of an import
identifier (`split` always yields a nonempty list, so the default is dead). -/
def baseNameOf (imp : String) : String :=
  (pySplitDot imp).getLastD ""

/-- Embeds `ProjectAnalyzer._detect_unused_imports`: keep each flattened import
whose base name does not occur as a substring of the raw file text. -/
def detectUnusedImports (content : String) (tree : Ast) : List String :=
  let imports := collectImports tree
  imports.filter (fun imp => !(pyIn (baseNameOf imp) content))

/-- One entry of the `functions` sequence of `_analyze_python_file`. -/
structure FunctionDecl where
  name : String
  line : Nat
  args : List String
  complexity : Nat
deriving DecidableEq, Repr

/-- One entry of the `classes` sequence of `_analyze_python_file`. -/
structure ClassDecl where
  name : String
  line : Nat
  methods : List String
  bases : List String
deriving DecidableEq, Repr

/-- The method names of a class: names of the immediate `FunctionDef`
statements of its body. -/
def methodNames (body : List Ast) : List String :=
  body.filterMap fun n =>
    match n with
    | .functionDef name _ _ _ => some name
    | _ => none

/-- The `classes` sequence collected by the walk loop of
`_analyze_python_file`. -/
def collectClasses (tree : Ast) : List ClassDecl :=
  (walk tree).filterMap fun n =>
    match n with
    | .classDef name line bases body =>
        some { name := name, line := line, methods := methodNames body, bases := bases }
    | _ => none

/-- The `functions` sequence collected by the walk loop of
`_analyze_python_file`, each with its per-function complexity. -/
def collectFunctions (tree : Ast) : List FunctionDecl :=
  (walk tree).filterMap fun n =>
    match n with
    | .functionDef name line args body =>
        some { name := name, line := line, args := args,
               complexity := calculateFunctionComplexity (.functionDef name line args body) }
    | _ => none

/-! ## File records and the per-file pipeline -/

/-- One scanned file's record (the per-file dict of `ProjectAnalyzer`).
`size`, `extension` and `type` are always present; every other key is
optional and `none` models its absence from the dict, so Python's
`info.get(key, default)` is `Option.getD`. A parse or read failure during
source analysis leaves only `error` set. -/
structure FileInfo where
  size : Nat
  extension : String
  type : String
  classes : Option (List ClassDecl) := none
  functions : Option (List FunctionDecl) := none
  imports : Option (List String) := none
  line_count : Option Nat := none
  content_preview : Option String := none
  complexity : Option Nat := none
  docstrings : Option Docstrings := none
  unused_imports : Option (List String) := none
  error : Option String := none
deriving DecidableEq, Repr

/-- The per-file filesystem and parser oracle: what the OS and `ast.parse`
would answer for this file. `readResult` covers I/O and decode failures;
`parseResult` is the outcome of `ast.parse` on the file's text and is only
consulted for the analyzable extension. -/
structure FileDesc where
  path : String
  name : String
  extension : String
  statResult : Except String Nat
  readResult : Except String String
  parseResult : Except String Ast

/-- The extension table of `_get_file_type`. -/
def typeMap : List (String × String) :=
  [(".py", "Python"), (".json", "JSON"), (".txt", "Text"), (".md", "Markdown"),
   (".html", "HTML"), (".css", "CSS"), (".js", "JavaScript"), (".ts", "TypeScript"),
   (".cpp", "C++"), (".c", "C"), (".java", "Java")]

/-- Embeds `ProjectAnalyzer._get_file_type`: lowercased-extension lookup with
default `"Unknown"`. -/
def getFileType (extension : String) : String :=
  (typeMap.lookup (pyLower extension)).getD "Unknown"

/-- Embeds `ProjectAnalyzer._get_content_preview` (identical in `ProjectScanner`):
`f.read(max_chars)` followed by an ellipsis marker whenever the read came
back full-length. -/
def getContentPreview (content : String) (maxChars : Nat := 200) : String :=
  let c := content.take maxChars
  if c.length = maxChars then c ++ "..." else c

/-- The preview stored for a non-analyzable file: the 200-character preview,
or the fixed marker when the file cannot be read (the bare `except`). -/
def contentPreviewOf (fd : FileDesc) : String :=
  match fd.readResult with
  | .error _ => "[Binary or unreadable file]"
  | .ok content => getContentPreview content

/-- The 500-character preview of `_analyze_python_file`. -/
def preview500 (content : String) : String :=
  if content.length > 500 then content.take 500 ++ "..." else content

/-- Embeds `ProjectAnalyzer._analyze_python_file` applied on top of the base record:
the `try` block reads and parses the file and fills the structured fields;
any failure is caught and stored as an `error`-only update. -/
def analyzePythonFile (fd : FileDesc) (base : FileInfo) : FileInfo :=
  match fd.readResult with
  | .error e => { base with error := some e }
  | .ok content =>
    match fd.parseResult with
    | .error e => { base with error := some e }
    | .ok tree =>
      { base with
        classes := some (collectClasses tree),
        functions := some (collectFunctions tree),
        imports := some (collectImports tree),
        line_count := some (lineCountOf content),
        content_preview := some (preview500 content),
        complexity := some (calculateComplexity tree),
        docstrings := some (checkDocstrings tree),
        unused_imports := some (detectUnusedImports content tree) }

/-- Embeds `ProjectAnalyzer._analyze_file`. The `file_path.stat()` call sits outside
every `try` block in the source, so a stat failure is re-raised to the
caller (`Except.error`); all later failures are absorbed into the record. -/
def analyzeFile (fd : FileDesc) : Except String FileInfo :=
  match fd.statResult with
  | .error e => .error e
  | .ok size =>
    let base : FileInfo := { size := size, extension := fd.extension, type := getFileType fd.extension }
    if fd.extension = ".py" then
      .ok (analyzePythonFile fd base)
    else
      .ok { base with content_preview := some (contentPreviewOf fd) }

/-! ## Architecture analysis (`_analyze_architecture`) -/

/-- The running state of the single pass of `_analyze_architecture`:
the mutable dict fields plus the local `total_size` accumulator. -/
structure ArchAcc where
  languages : List (String × Nat)
  main_modules : List String
  utils_modules : List String
  test_files : List String
  config_files : List String
  total_lines : Nat
  total_size : Nat
deriving DecidableEq, Repr

/-- Performs `architecture['languages'][lang] = architecture['languages'].get(lang, 0) + 1`
on an insertion-ordered dict. -/
def langBump : List (String × Nat) → String → List (String × Nat)
  | [], lang => [(lang, 1)]
  | (k, v) :: rest, lang =>
      if k = lang then (k, v + 1) :: rest else (k, v) :: langBump rest lang

/-- Tests `'main' in file_path.lower() or 'app' in file_path.lower()`. -/
def mainMatch (p : String) : Bool := pyIn "main" (pyLower p) || pyIn "app" (pyLower p)

/-- Tests `'util' in file_path.lower() or 'helper' in file_path.lower()`. -/
def utilMatch (p : String) : Bool := pyIn "util" (pyLower p) || pyIn "helper" (pyLower p)

/-- Tests `'test' in file_path.lower() or 'spec' in file_path.lower()`. -/
def testMatch (p : String) : Bool := pyIn "test" (pyLower p) || pyIn "spec" (pyLower p)

/-- Tests `'config' in file_path.lower() or 'settings' in file_path.lower()`. -/
def configMatch (p : String) : Bool := pyIn "config" (pyLower p) || pyIn "settings" (pyLower p)

/-- One iteration of the file loop of `_analyze_architecture`: bump the
language histogram, classify the path by the `if`/`elif` keyword chain on
the lowercased path, and accumulate size and (when present) line count. -/
def archStep (acc : ArchAcc) (entry : String × FileInfo) : ArchAcc :=
  let p := entry.1
  let info := entry.2
  let acc := { acc with languages := langBump acc.languages info.type }
  let acc :=
    if mainMatch p then
      { acc with main_modules := acc.main_modules ++ [p] }
    else if utilMatch p then
      { acc with utils_modules := acc.utils_modules ++ [p] }
    else if testMatch p then
      { acc with test_files := acc.test_files ++ [p] }
    else if configMatch p then
      { acc with config_files := acc.config_files ++ [p] }
    else acc
  { acc with total_size := acc.total_size + info.size,
             total_lines := acc.total_lines + info.line_count.getD 0 }

/-- The architecture summary returned by `_analyze_architecture`.
`avg_file_size` is a Python float, modelled as an exact rational. -/
structure Architecture where
  languages : List (String × Nat)
  main_modules : List String
  utils_modules : List String
  test_files : List String
  config_files : List String
  total_files : Nat
  total_lines : Nat
  avg_file_size : ℚ
deriving DecidableEq, Repr

/-- Embeds `ProjectAnalyzer._analyze_architecture`: one pass over the records;
`total_files` is the record count, and the average size is only computed
when that count is positive, staying at its initial `0` otherwise. -/
def analyzeArchitecture (fa : List (String × FileInfo)) : Architecture :=
  let acc := fa.foldl archStep ⟨[], [], [], [], [], 0, 0⟩
  { languages := acc.languages,
    main_modules := acc.main_modules,
    utils_modules := acc.utils_modules,
    test_files := acc.test_files,
    config_files := acc.config_files,
    total_files := fa.length,
    total_lines := acc.total_lines,
    avg_file_size := if 0 < fa.length then (acc.total_size : ℚ) / (fa.length : ℚ) else 0 }

/-! ## Issue detection (`_detect_issues`) -/

/-- Round-half-to-even integer division, the rounding of Python's float
formatting. Used only to render the percentage text inside issue entries. -/
def halfEvenDiv (a b : Nat) : Nat :=
  if b = 0 then 0
  else
    let q := a / b
    let r := a % b
    if 2 * r < b then q
    else if b < 2 * r then q + 1
    else if q % 2 = 0 then q else q + 1

/-- Python's `f"{num/den:.1%}"`: the ratio as a percentage with one decimal
digit, modelled by exact rational rounding to a tenth of a percent. -/
def fmtPercent (num den : Nat) : String :=
  let permille := halfEvenDiv (num * 1000) den
  s!"{permille / 10}.{permille % 10}%"

/-- The `missing_docstrings` entry text for one file. -/
def mdEntryString (p : String) (ds : Docstrings) : String :=
  let pct := fmtPercent ds.functions ds.total_functions
  s!"{p} ({pct} functions documented)"

/-- The high-complexity rule of `_detect_issues` for one record. -/
def highComplexityRule (p : String) (info : FileInfo) : Option String :=
  let c := info.complexity.getD 0
  if c > 10 then some s!"{p} (complexity: {c})" else none

/-- The missing-docstrings rule of `_detect_issues` for one record: guarded
by a positive function count, triggered by a documented ratio strictly
below one half (`0.5` is exactly representable, so the float comparison is
the rational one). -/
def missingDocstringsRule (p : String) (info : FileInfo) : Option String :=
  let ds := info.docstrings.getD ⟨0, 0, 0, 0⟩
  if 0 < ds.total_functions then
    if (ds.functions : ℚ) / (ds.total_functions : ℚ) < 1/2 then
      some (mdEntryString p ds)
    else none
  else none

/-- The unused-imports rule of `_detect_issues` for one record. -/
def unusedImportsRule (p : String) (info : FileInfo) : Option String :=
  let unused := info.unused_imports.getD []
  if unused = [] then none
  else
    let listed := String.intercalate ", " (unused.take 3)
    let suffix := if unused.length > 3 then "..." else ""
    some s!"{p}: {listed}{suffix}"

/-- The large-file rule of `_detect_issues` for one record. -/
def largeFilesRule (p : String) (info : FileInfo) : Option String :=
  let lc := info.line_count.getD 0
  if lc > 500 then some s!"{p} ({lc} lines)" else none

/-- The TODO/FIXME rule of `_detect_issues` for one record; it scans the
stored content preview, not the full file. -/
def potentialBugsRule (p : String) (info : FileInfo) : Option String :=
  let content := info.content_preview.getD ""
  if pyIn "TODO" content || pyIn "FIXME" content || pyIn "XXX" content then
    some s!"{p} contains TODO/FIXME comments"
  else none

/-- The five issue-category lists of `_detect_issues`. -/
structure IssueSet where
  high_complexity_files : List String
  missing_docstrings : List String
  unused_imports : List String
  large_files : List String
  potential_bugs : List String
deriving DecidableEq, Repr

/-- Applies one per-record rule under the `continue` guard that skips every
record whose type label is not `"Python"`. -/
def pyRule (rule : String → FileInfo → Option String) (entry : String × FileInfo) : Option String :=
  if entry.2.type = "Python" then rule entry.1 entry.2 else none

/-- Embeds `ProjectAnalyzer._detect_issues`. The source fills all five lists in a
single loop that appends at most one entry per category per record, which
is the same list as the per-category `filterMap` of the record's rule. -/
def detectIssues (fa : List (String × FileInfo)) : IssueSet where
  high_complexity_files := fa.filterMap (pyRule highComplexityRule)
  missing_docstrings := fa.filterMap (pyRule missingDocstringsRule)
  unused_imports := fa.filterMap (pyRule unusedImportsRule)
  large_files := fa.filterMap (pyRule largeFilesRule)
  potential_bugs := fa.filterMap (pyRule potentialBugsRule)

/-! ## Suggestions, per-file feedback, summary, and the orchestrator -/

/-- The four suggestion lists of `_generate_suggestions`. -/
structure SuggestionSet where
  architecture : List String
  code_quality : List String
  performance : List String
  maintainability : List String
deriving DecidableEq, Repr

/-- Embeds `ProjectAnalyzer._generate_suggestions`: the fixed, independently
evaluated rule table (the `file_analysis` argument is unused in the source). -/
def generateSuggestions (_fa : List (String × FileInfo)) (arch : Architecture)
    (issues : IssueSet) : SuggestionSet where
  architecture :=
    (if arch.main_modules.length = 0 then
      ["Consider creating a main entry point file (main.py, app.py, etc.)"] else []) ++
    (if arch.test_files.length = 0 then
      ["Add unit tests to improve code reliability"] else [])
  code_quality :=
    (if issues.high_complexity_files ≠ [] then
      ["Refactor high-complexity functions into smaller, more focused functions"] else []) ++
    (if issues.missing_docstrings ≠ [] then
      ["Add docstrings to all public functions and classes"] else []) ++
    (if issues.unused_imports ≠ [] then
      ["Remove unused imports to clean up the codebase"] else [])
  performance :=
    if arch.avg_file_size > 100000 then
      ["Consider breaking large files into smaller modules"] else []
  maintainability :=
    if arch.total_files > 50 then
      ["Consider organizing code into packages/submodules"] else []

/-- Embeds `ProjectAnalyzer._generate_file_feedback` for one record: the markdown
bullet text built line by line. -/
def fileFeedbackFor (p : String) (info : FileInfo) : String :=
  let s := s!"**{p}**\n- Type: {info.type}\n- Size: {info.size} bytes\n"
  if info.type = "Python" then
    let s := if info.line_count.isSome then
        let lc := info.line_count.getD 0
        s ++ s!"- Lines of code: {lc}\n" else s
    let s := if info.classes.isSome ∧ info.classes.getD [] ≠ [] then
        let nc := (info.classes.getD []).length
        s ++ s!"- Classes: {nc}\n" else s
    let s := if info.functions.isSome ∧ info.functions.getD [] ≠ [] then
        let nf := (info.functions.getD []).length
        s ++ s!"- Functions: {nf}\n" else s
    let s := if info.complexity.getD 0 > 10 then
        s ++ "- ⚠️  High complexity - consider refactoring\n" else s
    let ds := info.docstrings.getD ⟨0, 0, 0, 0⟩
    let s := if 0 < ds.total_functions ∧
        (ds.functions : ℚ) / (ds.total_functions : ℚ) < 1/2 then
        let pct := fmtPercent ds.functions ds.total_functions
        s ++ s!"- ⚠️  Low docstring coverage ({pct})\n" else s
    let s := if info.unused_imports.getD [] ≠ [] then
        let nu := (info.unused_imports.getD []).length
        s ++ s!"- ⚠️  Potential unused imports: {nu}\n" else s
    s
  else s

/-- Embeds `ProjectAnalyzer._generate_file_feedback`. -/
def generateFileFeedback (fa : List (String × FileInfo)) : List (String × String) :=
  fa.map (fun entry => (entry.1, fileFeedbackFor entry.1 entry.2))

/-- The summary record of `_create_summary`; `test_coverage` is the Python
float `len(test_files) / max(1, total_files)`, modelled exactly. -/
structure Summary where
  total_files : Nat
  total_lines : Nat
  languages : List (String × Nat)
  issues_count : Nat
  main_modules : Nat
  test_coverage : ℚ
deriving DecidableEq, Repr

/-- Embeds `ProjectAnalyzer._create_summary`. -/
def createSummary (arch : Architecture) (issues : IssueSet) : Summary where
  total_files := arch.total_files
  total_lines := arch.total_lines
  languages := arch.languages
  issues_count := issues.high_complexity_files.length + issues.missing_docstrings.length +
    issues.unused_imports.length + issues.large_files.length + issues.potential_bugs.length
  main_modules := arch.main_modules.length
  test_coverage := (arch.test_files.length : ℚ) / (max 1 arch.total_files : ℚ)

/-- The result bundle returned by `analyze_project`. -/
structure Bundle where
  file_analysis : List (String × FileInfo)
  architecture : Architecture
  issues : IssueSet
  suggestions : SuggestionSet
  file_feedback : List (String × String)
  summary : Summary
deriving DecidableEq, Repr

/-- The post-loop stages of `analyze_project` assembled over whatever
records the file loop accumulated. -/
def mkBundle (recs : List (String × FileInfo)) : Bundle :=
  let arch := analyzeArchitecture recs
  let issues := detectIssues recs
  { file_analysis := recs,
    architecture := arch,
    issues := issues,
    suggestions := generateSuggestions recs arch issues,
    file_feedback := generateFileFeedback recs,
    summary := createSummary arch issues }

/-- The per-file loop of `analyze_project`. The cancellation event is an
oracle `cancel` indexed by the observation points: the flag is read once at
the top of each iteration `i`; once any `analyzeFile` call raises, the
exception propagates (there is no `try` around the loop body). The returned
flag records whether the loop exited through the cancellation `break`.
Progress messages are the strings passed to the progress callback. -/
def analyzeLoop (n : Nat) (cancel : Nat → Bool) :
    Nat → List FileDesc → Except String (List String × List (String × FileInfo) × Bool)
  | _, [] => .ok ([], [], false)
  | i, fd :: rest =>
    if cancel i then .ok ([], [], true)
    else
      match analyzeFile fd with
      | .error e => .error e
      | .ok info =>
        match analyzeLoop n cancel (i + 1) rest with
        | .error e => .error e
        | .ok (msgs, recs, observed) =>
            .ok (s!"Analyzing {fd.name}... ({i + 1}/{n})" :: msgs,
                 (fd.path, info) :: recs, observed)

/-- The four stage notifications `analyze_project` always submits between
the file loop and the terminal message. -/
def stageMessages : List String :=
  ["Analyzing project architecture...", "Detecting potential issues...",
   "Generating improvement suggestions...", "Creating file-specific feedback..."]

/-- Every progress notification `analyze_project` submits after the file
loop: the four stage messages and then the terminal message, which reports
cancellation when the flag is set at the final read (modelled as observation
point `files.length`, after every loop boundary). -/
def postLoopMessages (files : List FileDesc) (cancel : Nat → Bool) : List String :=
  stageMessages ++ [if cancel files.length then "Analysis cancelled" else "Analysis completed"]

/-- Embeds `ProjectAnalyzer.analyze_project` with a progress callback installed:
the full ordered list of progress notifications and the result bundle, or
the uncaught exception of a failed `stat`. -/
def analyzeProject (files : List FileDesc) (cancel : Nat → Bool) :
    Except String (List String × Bundle) :=
  match analyzeLoop files.length cancel 0 files with
  | .error e => .error e
  | .ok (msgs, recs, _) =>
      .ok ("Starting project analysis..." :: msgs ++ postLoopMessages files cancel,
           mkBundle recs)

/-- The trace component of an orchestrator outcome (for stating claims). -/
def traceOf (r : Except String (List String × Bundle)) : Option (List String) :=
  match r with
  | .ok (msgs, _) => some msgs
  | .error _ => none

/-- The records the orchestrator accumulated (for stating claims). -/
def recsOf (r : Except String (List String × Bundle)) : Option (List (String × FileInfo)) :=
  match r with
  | .ok (_, b) => some b.file_analysis
  | .error _ => none

/-- Total wrapper over `analyzeFile` used to state which record a
successfully processed file contributes. -/
def analyzeFileD (fd : FileDesc) : FileInfo :=
  match analyzeFile fd with
  | .ok info => info
  | .error _ => { size := 0, extension := "", type := "" }

/-! ## `AnalysisContextManager.get_context_for_chat` (`analysis_context.py`) -/

/-- The truncation marker appended by `get_context_for_chat`. -/
def truncationMarker : String := "\n\n[Context truncated for length...]"

/-- Embeds `AnalysisContextManager.get_context_for_chat`: `currentPrompt` is the
stored `context_prompt` string when a context is loaded (`none` when
`self.current_context` is falsy). Truncation slices with Python's integer
`max_length - 100`, which is negative for `max_length < 100`. -/
def getContextForChat (currentPrompt : Option String) (maxLength : Nat := 2000) :
    Option String :=
  match currentPrompt with
  | none => none
  | some context =>
      some (if context.length > maxLength then
              pySliceTo context ((maxLength : Int) - 100) ++ truncationMarker
            else context)

/-! ## Helper lemmas about the architecture fold -/

theorem archStep_nat_field (f : ArchAcc → Nat) (g : String × FileInfo → Nat)
    (hstep : ∀ acc e, f (archStep acc e) = f acc + g e) :
    ∀ (fa : List (String × FileInfo)) (acc : ArchAcc),
      f (fa.foldl archStep acc) = f acc + (fa.map g).sum := by
  intro fa
  induction fa with
  | nil => intro acc; simp
  | cons e fa ih => intro acc; simp [List.foldl_cons, ih, hstep]; omega

theorem archStep_total_size (acc : ArchAcc) (e : String × FileInfo) :
    (archStep acc e).total_size = acc.total_size + e.2.size := by
  simp only [archStep]
  split_ifs <;> rfl

theorem archStep_total_lines (acc : ArchAcc) (e : String × FileInfo) :
    (archStep acc e).total_lines = acc.total_lines + e.2.line_count.getD 0 := by
  simp only [archStep]
  split_ifs <;> rfl

/-! ## C9 -/

/-- C9: the architecture summary's average file size is `0` for a run over
zero files (the guard keeps the initial value, so no division by zero is
performed), and for a positive file count it is the total byte size divided
by the file count. -/
theorem C9_avg_file_size_total :
    (analyzeArchitecture []).avg_file_size = 0
    ∧ ∀ fa : List (String × FileInfo), 0 < fa.length →
        (analyzeArchitecture fa).avg_file_size =
          (((fa.map (fun e => e.2.size)).sum : ℚ)) / ((fa.length : ℚ)) := by
  constructor
  · rfl
  · intro fa hpos
    have hsz := archStep_nat_field ArchAcc.total_size (fun e => e.2.size)
      archStep_total_size fa ⟨[], [], [], [], [], 0, 0⟩
    simp only [analyzeArchitecture, if_pos hpos, hsz]
    push_cast
    simp [Function.comp_def]

/-- Witness for C9 at a concrete two-file run: sizes 3 and 5 average to 4. -/
theorem C9_avg_file_size_total_witness :
    0 < ([(("a.txt" : String), ({ size := 3, extension := ".txt", type := "Text" } : FileInfo)),
          ("b.txt", { size := 5, extension := ".txt", type := "Text" })]).length
    ∧ (analyzeArchitecture
        [("a.txt", { size := 3, extension := ".txt", type := "Text" }),
         ("b.txt", { size := 5, extension := ".txt", type := "Text" })]).avg_file_size = 4 := by
  refine ⟨by decide, ?_⟩
  rw [C9_avg_file_size_total.2 _ (by decide)]
  norm_num

/-! ## C10 -/

/-- C10: a readable non-analyzable file whose content is exactly 200
characters long gets a stored preview of those 200 characters with the
ellipsis marker appended, even though nothing was truncated — so the marker
does not imply the file was longer than 200 characters. -/
theorem C10_preview_marker_at_exact_length (fd : FileDesc) (sz : Nat) (content : String)
    (hext : fd.extension ≠ ".py") (hstat : fd.statResult = Except.ok sz)
    (hread : fd.readResult = Except.ok content) (hlen : content.length = 200) :
    analyzeFile fd = Except.ok
      { size := sz, extension := fd.extension, type := getFileType fd.extension,
        content_preview := some (content ++ "...") } := by
  have hdata : content.data.length = 200 := hlen
  have htake : content.take 200 = content := by
    apply String.ext
    simp [List.take_of_length_le, hdata]
  have hlen' : (content.take 200).length = 200 := by rw [htake, hlen]
  simp [analyzeFile, hstat, hext, contentPreviewOf, hread, getContentPreview, htake, hlen', hlen]

/-- A concrete 200-character file content. -/
def exC10Content : String := String.mk (List.replicate 200 'x')

/-- A concrete readable non-analyzable file of exactly 200 characters. -/
def exC10Fd : FileDesc :=
  { path := "notes.txt", name := "notes.txt", extension := ".txt",
    statResult := .ok 200, readResult := .ok exC10Content,
    parseResult := .error "not parsed" }

/-- Witness for C10 at a concrete 200-character text file. -/
theorem C10_preview_marker_at_exact_length_witness :
    exC10Content.length = 200
    ∧ analyzeFile exC10Fd = Except.ok
        { size := 200, extension := ".txt", type := getFileType ".txt",
          content_preview := some (exC10Content ++ "...") } :=
  ⟨by decide, C10_preview_marker_at_exact_length exC10Fd 200 exC10Content
    (by decide) rfl rfl (by decide)⟩

/-! ## C5 -/

/-- C5: for an analyzable record with a positive function count, the issue
detector adds a `missing_docstrings` entry exactly when the documented
ratio is strictly below one half; at a ratio of exactly `0.5` (for example
2 functions with 1 documented) no entry is added. -/
theorem C5_missing_docstrings_threshold (p : String) (info : FileInfo) (ds : Docstrings)
    (fa₁ fa₂ : List (String × FileInfo))
    (hType : info.type = "Python") (hds : info.docstrings = some ds)
    (hpos : 0 < ds.total_functions) :
    (detectIssues (fa₁ ++ (p, info) :: fa₂)).missing_docstrings =
      (detectIssues fa₁).missing_docstrings ++
        (if (ds.functions : ℚ) / (ds.total_functions : ℚ) < 1/2
         then [mdEntryString p ds] else []) ++
        (detectIssues fa₂).missing_docstrings := by
  by_cases hlt : (ds.functions : ℚ) / (ds.total_functions : ℚ) < 1/2
  · rw [one_div] at hlt
    simp [detectIssues, List.filterMap_append, List.filterMap_cons, pyRule,
      missingDocstringsRule, hType, hds, hpos, hlt]
  · rw [one_div] at hlt
    simp [detectIssues, List.filterMap_append, List.filterMap_cons, pyRule,
      missingDocstringsRule, hType, hds, hpos, hlt]

/-- The record of a parsed file with 2 functions, 1 of them documented. -/
def exC5Info : FileInfo :=
  { size := 40, extension := ".py", type := "Python",
    docstrings := some ⟨1, 0, 2, 0⟩ }

/-- Witness for C5 at the boundary record (ratio exactly `0.5`): no
`missing_docstrings` entry is produced. -/
theorem C5_missing_docstrings_threshold_witness :
    0 < (⟨1, 0, 2, 0⟩ : Docstrings).total_functions
    ∧ (detectIssues [("m.py", exC5Info)]).missing_docstrings = [] := by
  refine ⟨by decide, ?_⟩
  have h := C5_missing_docstrings_threshold "m.py" exC5Info ⟨1, 0, 2, 0⟩ [] []
    rfl rfl (by decide)
  norm_num at h
  exact h

/-! ## C8 -/

/-- Modelled from the claim's words: «the condensed context returned equals
the first `max_length − 100` characters of the context followed by a
truncation marker» — with the length subtraction read as a (truncated)
natural-number count of characters to keep. -/
def claimedCondensedContext (context : String) (maxLength : Nat) : String :=
  if context.length > maxLength then context.take (maxLength - 100) ++ truncationMarker
  else context

/-- A concrete stored context of 60 characters. -/
def exC8Context : String := String.mk (List.replicate 60 'a')

/-- Counterexample to C8: with `max_length = 50` and a 60-character context,
the code slices with the negative Python index `50 - 100 = -50` and keeps
the first 10 characters, not the first `max_length − 100` characters. -/
theorem C8_counterexample :
    getContextForChat (some exC8Context) 50 ≠ some (claimedCondensedContext exC8Context 50) := by
  decide

/-- C8 (amended): for every caller-supplied maximum length of at least 100,
an over-long context is cut to its first `max_length − 100` characters with
the truncation marker appended, and a context within the maximum is
returned unchanged. (For `max_length < 100` the Python slice index
`max_length - 100` is negative and instead drops `100 − max_length`
characters from the end.) -/
theorem C8_condensed_context_amended (context : String) (maxLength : Nat)
    (h : 100 ≤ maxLength) :
    getContextForChat (some context) maxLength =
      some (if context.length > maxLength then
              context.take (maxLength - 100) ++ truncationMarker
            else context) := by
  simp only [getContextForChat]
  congr 1
  split
  · have h0 : (0 : Int) ≤ (maxLength : Int) - 100 := by omega
    have ht : ((maxLength : Int) - 100).toNat = maxLength - 100 := by omega
    simp [pySliceTo, h0, ht]
  · rfl

/-- A concrete stored context of 150 characters. -/
def exC8Long : String := String.mk (List.replicate 150 'a')

/-- Witness for C8 (amended) at `max_length = 120` over a 150-character
context: the first 20 characters plus the marker come back. -/
theorem C8_condensed_context_amended_witness :
    100 ≤ 120
    ∧ getContextForChat (some exC8Long) 120 =
        some (String.mk (List.replicate 20 'a') ++ truncationMarker) := by
  refine ⟨by decide, ?_⟩
  rw [C8_condensed_context_amended exC8Long 120 (by decide)]
  decide

/-! ## C6 -/

/-- A path selector of the classification chain: the path itself when the
chain condition holds, nothing otherwise. -/
def pathSel (cond : String → Bool) (entry : String × FileInfo) : Option String :=
  if cond entry.1 then some entry.1 else none

/-- The chain condition under which a path lands in `main_modules`. -/
def mainSelCond (p : String) : Bool := mainMatch p

/-- The chain condition under which a path lands in `utils_modules`. -/
def utilsSelCond (p : String) : Bool := !mainMatch p && utilMatch p

/-- The chain condition under which a path lands in `test_files`. -/
def testSelCond (p : String) : Bool := !mainMatch p && !utilMatch p && testMatch p

/-- The chain condition under which a path lands in `config_files`. -/
def configSelCond (p : String) : Bool :=
  !mainMatch p && !utilMatch p && !testMatch p && configMatch p

theorem archStep_main (acc : ArchAcc) (e : String × FileInfo) :
    (archStep acc e).main_modules = acc.main_modules ++ (pathSel mainSelCond e).toList := by
  simp only [archStep, pathSel, mainSelCond]
  split_ifs <;> simp_all

theorem archStep_utils (acc : ArchAcc) (e : String × FileInfo) :
    (archStep acc e).utils_modules = acc.utils_modules ++ (pathSel utilsSelCond e).toList := by
  simp only [archStep, pathSel, utilsSelCond]
  split_ifs <;> simp_all

theorem archStep_test (acc : ArchAcc) (e : String × FileInfo) :
    (archStep acc e).test_files = acc.test_files ++ (pathSel testSelCond e).toList := by
  simp only [archStep, pathSel, testSelCond]
  split_ifs <;> simp_all

theorem archStep_config (acc : ArchAcc) (e : String × FileInfo) :
    (archStep acc e).config_files = acc.config_files ++ (pathSel configSelCond e).toList := by
  simp only [archStep, pathSel, configSelCond]
  split_ifs <;> simp_all

theorem archStep_list_field (f : ArchAcc → List String) (g : String × FileInfo → Option String)
    (hstep : ∀ acc e, f (archStep acc e) = f acc ++ (g e).toList) :
    ∀ (fa : List (String × FileInfo)) (acc : ArchAcc),
      f (fa.foldl archStep acc) = f acc ++ fa.filterMap g := by
  intro fa
  induction fa with
  | nil => intro acc; simp
  | cons e fa ih =>
    intro acc
    rw [List.foldl_cons, ih, hstep, List.filterMap_cons]
    cases g e <;> simp

theorem mem_filterMap_pathSel (cond : String → Bool) (fa : List (String × FileInfo)) (p : String) :
    p ∈ fa.filterMap (pathSel cond) ↔ p ∈ fa.map Prod.fst ∧ cond p = true := by
  simp only [List.mem_filterMap, List.mem_map, pathSel]
  constructor
  · rintro ⟨e, he, hsel⟩
    by_cases hc : cond e.1 = true
    · rw [if_pos hc] at hsel
      injection hsel with h
      subst h
      exact ⟨⟨e, he, rfl⟩, hc⟩
    · rw [if_neg hc] at hsel
      exact (Option.noConfusion hsel)
  · rintro ⟨⟨e, he, hfst⟩, hc⟩
    subst hfst
    exact ⟨e, he, if_pos hc⟩

/-- C6: in the architecture summary every path lands in at most one of the
four classified lists, decided by the case-insensitive keyword pairs
`main`/`app`, `util`/`helper`, `test`/`spec`, `config`/`settings` in that
priority order with the first match winning; a path matching no keyword
appears in none of the four lists. -/
theorem C6_architecture_classification (fa : List (String × FileInfo)) (p : String) :
    (p ∈ (analyzeArchitecture fa).main_modules ↔
        p ∈ fa.map Prod.fst ∧ mainMatch p = true)
    ∧ (p ∈ (analyzeArchitecture fa).utils_modules ↔
        p ∈ fa.map Prod.fst ∧ mainMatch p = false ∧ utilMatch p = true)
    ∧ (p ∈ (analyzeArchitecture fa).test_files ↔
        p ∈ fa.map Prod.fst ∧ mainMatch p = false ∧ utilMatch p = false ∧ testMatch p = true)
    ∧ (p ∈ (analyzeArchitecture fa).config_files ↔
        p ∈ fa.map Prod.fst ∧ mainMatch p = false ∧ utilMatch p = false ∧ testMatch p = false
          ∧ configMatch p = true)
    ∧ ((if p ∈ (analyzeArchitecture fa).main_modules then 1 else 0)
        + (if p ∈ (analyzeArchitecture fa).utils_modules then 1 else 0)
        + (if p ∈ (analyzeArchitecture fa).test_files then 1 else 0)
        + (if p ∈ (analyzeArchitecture fa).config_files then 1 else 0) ≤ 1)
    ∧ (mainMatch p = false → utilMatch p = false → testMatch p = false → configMatch p = false →
        p ∉ (analyzeArchitecture fa).main_modules ∧ p ∉ (analyzeArchitecture fa).utils_modules
          ∧ p ∉ (analyzeArchitecture fa).test_files
          ∧ p ∉ (analyzeArchitecture fa).config_files) := by
  have hmainL : (analyzeArchitecture fa).main_modules = fa.filterMap (pathSel mainSelCond) := by
    simp only [analyzeArchitecture]
    rw [archStep_list_field ArchAcc.main_modules (pathSel mainSelCond) archStep_main fa]
    simp
  have hutilsL : (analyzeArchitecture fa).utils_modules = fa.filterMap (pathSel utilsSelCond) := by
    simp only [analyzeArchitecture]
    rw [archStep_list_field ArchAcc.utils_modules (pathSel utilsSelCond) archStep_utils fa]
    simp
  have htestL : (analyzeArchitecture fa).test_files = fa.filterMap (pathSel testSelCond) := by
    simp only [analyzeArchitecture]
    rw [archStep_list_field ArchAcc.test_files (pathSel testSelCond) archStep_test fa]
    simp
  have hconfigL : (analyzeArchitecture fa).config_files = fa.filterMap (pathSel configSelCond) := by
    simp only [analyzeArchitecture]
    rw [archStep_list_field ArchAcc.config_files (pathSel configSelCond) archStep_config fa]
    simp
  have h1 : p ∈ (analyzeArchitecture fa).main_modules ↔
      p ∈ fa.map Prod.fst ∧ mainMatch p = true := by
    rw [hmainL, mem_filterMap_pathSel]
    simp [mainSelCond]
  have h2 : p ∈ (analyzeArchitecture fa).utils_modules ↔
      p ∈ fa.map Prod.fst ∧ mainMatch p = false ∧ utilMatch p = true := by
    rw [hutilsL, mem_filterMap_pathSel]
    simp [utilsSelCond]
  have h3 : p ∈ (analyzeArchitecture fa).test_files ↔
      p ∈ fa.map Prod.fst ∧ mainMatch p = false ∧ utilMatch p = false ∧ testMatch p = true := by
    rw [htestL, mem_filterMap_pathSel]
    simp [testSelCond, and_assoc]
  have h4 : p ∈ (analyzeArchitecture fa).config_files ↔
      p ∈ fa.map Prod.fst ∧ mainMatch p = false ∧ utilMatch p = false ∧ testMatch p = false
        ∧ configMatch p = true := by
    rw [hconfigL, mem_filterMap_pathSel]
    simp [configSelCond, and_assoc]
  refine ⟨h1, h2, h3, h4, ?_, ?_⟩
  · rcases Bool.eq_false_or_eq_true (mainMatch p) with hm | hm <;>
      rcases Bool.eq_false_or_eq_true (utilMatch p) with hu | hu <;>
        rcases Bool.eq_false_or_eq_true (testMatch p) with ht | ht <;>
          rcases Bool.eq_false_or_eq_true (configMatch p) with hc | hc <;>
            by_cases hk : p ∈ fa.map Prod.fst <;>
              simp [h1, h2, h3, h4, hm, hu, ht, hc, hk]
  · intro hm hu ht hc
    simp [h1, h2, h3, h4, hm, hu, ht, hc]

/-- Two concrete records: one path matching `main`, one matching nothing. -/
def exC6Fa : List (String × FileInfo) :=
  [("main.py", { size := 10, extension := ".py", type := "Python" }),
   ("readme.txt", { size := 5, extension := ".txt", type := "Text" })]

/-- Witness for C6: a path matching none of the keyword pairs appears in
none of the four classified lists. -/
theorem C6_architecture_classification_witness :
    mainMatch "readme.txt" = false
    ∧ "readme.txt" ∉ (analyzeArchitecture exC6Fa).main_modules
    ∧ "readme.txt" ∉ (analyzeArchitecture exC6Fa).utils_modules
    ∧ "readme.txt" ∉ (analyzeArchitecture exC6Fa).test_files
    ∧ "readme.txt" ∉ (analyzeArchitecture exC6Fa).config_files := by
  have h := (C6_architecture_classification exC6Fa "readme.txt").2.2.2.2.2
  exact ⟨by decide, h (by decide) (by decide) (by decide) (by decide)⟩

/-! ## C7 -/

/-- C7: a parse-failure record (analyzable type label, an error string, and
none of the structured fields) still counts toward the architecture
summary's total file count, adds nothing to the total line count, and
produces no entry in any of the five issue-category lists. -/
theorem C7_parse_failure_record (p : String) (info : FileInfo)
    (fa₁ fa₂ : List (String × FileInfo))
    (hType : info.type = "Python") (hErr : info.error.isSome = true)
    (hlc : info.line_count = none) (hcx : info.complexity = none)
    (hds : info.docstrings = none) (hui : info.unused_imports = none)
    (hcp : info.content_preview = none) :
    (analyzeArchitecture (fa₁ ++ (p, info) :: fa₂)).total_files = fa₁.length + fa₂.length + 1
    ∧ (analyzeArchitecture (fa₁ ++ (p, info) :: fa₂)).total_lines =
        (analyzeArchitecture (fa₁ ++ fa₂)).total_lines
    ∧ detectIssues (fa₁ ++ (p, info) :: fa₂) = detectIssues (fa₁ ++ fa₂) := by
  have hhc : pyRule highComplexityRule (p, info) = none := by
    simp [pyRule, hType, highComplexityRule, hcx]
  have hmd : pyRule missingDocstringsRule (p, info) = none := by
    simp [pyRule, hType, missingDocstringsRule, hds]
  have hun : pyRule unusedImportsRule (p, info) = none := by
    simp [pyRule, hType, unusedImportsRule, hui]
  have hlf : pyRule largeFilesRule (p, info) = none := by
    simp [pyRule, hType, largeFilesRule, hlc]
  have e1 : pyIn "TODO" "" = false := by decide
  have e2 : pyIn "FIXME" "" = false := by decide
  have e3 : pyIn "XXX" "" = false := by decide
  have hpb : pyRule potentialBugsRule (p, info) = none := by
    simp [pyRule, hType, potentialBugsRule, hcp, e1, e2, e3]
  refine ⟨?_, ?_, ?_⟩
  · simp [analyzeArchitecture]
    omega
  · have hl := fun (fa : List (String × FileInfo)) =>
      archStep_nat_field ArchAcc.total_lines (fun e => e.2.line_count.getD 0)
        archStep_total_lines fa ⟨[], [], [], [], [], 0, 0⟩
    simp only [analyzeArchitecture]
    rw [hl, hl]
    simp [hlc]
  · simp only [detectIssues, IssueSet.mk.injEq]
    refine ⟨?_, ?_, ?_, ?_, ?_⟩ <;>
      simp [List.filterMap_append, List.filterMap_cons, hhc, hmd, hun, hlf, hpb]

/-- A concrete parse-failure record. -/
def exC7Err : FileInfo :=
  { size := 157, extension := ".py", type := "Python",
    error := some "invalid syntax (bad.py, line 3)" }

/-- A concrete readable text-file record alongside it. -/
def exC7Other : FileInfo :=
  { size := 12, extension := ".txt", type := "Text", content_preview := some "hello" }

/-- Witness for C7 at a concrete two-record run containing one
parse-failure record. -/
theorem C7_parse_failure_record_witness :
    exC7Err.type = "Python"
    ∧ (analyzeArchitecture [("ok.txt", exC7Other), ("bad.py", exC7Err)]).total_files = 2
    ∧ (analyzeArchitecture [("ok.txt", exC7Other), ("bad.py", exC7Err)]).total_lines =
        (analyzeArchitecture [("ok.txt", exC7Other)]).total_lines
    ∧ detectIssues [("ok.txt", exC7Other), ("bad.py", exC7Err)] =
        detectIssues [("ok.txt", exC7Other)] := by
  have h := C7_parse_failure_record "bad.py" exC7Err [("ok.txt", exC7Other)] []
    rfl rfl rfl rfl rfl rfl rfl
  exact ⟨rfl, h.1, h.2.1, h.2.2⟩

/-! ## C1 -/

/-- The parsed tree of a file whose entire text is the statement
`import os`. -/
def exC1Tree : Ast := .module [.importStmt ["os"]]

/-- Counterexample to C1: a file whose whole text is the statement
`import os` — so the base name `os` occurs nowhere outside the import
statement — does not get `os` flagged, because the heuristic checks the
raw text and the import statement itself contains the substring `os`. -/
theorem C1_counterexample : "os" ∉ detectUnusedImports "import os" exC1Tree := by
  have himp : collectImports exC1Tree = ["os"] := by
    simp [collectImports, exC1Tree, walk, walkGo, children, importNamesOf]
  simp only [detectUnusedImports, himp]
  decide

/-- C1 (amended): an import is flagged as unused exactly when it was
collected from the tree and its base name occurs nowhere in the raw file
text — where the text includes the import statement itself; consequently in
any file whose text contains the substring `os` (in particular one spelling
`import os`), the import `os` is never flagged. -/
theorem C1_unused_import_heuristic_amended (content : String) (tree : Ast) :
    (∀ imp, imp ∈ detectUnusedImports content tree ↔
        imp ∈ collectImports tree ∧ pyIn (baseNameOf imp) content = false)
    ∧ (pyIn "os" content = true → "os" ∉ detectUnusedImports content tree) := by
  have hmem : ∀ imp, imp ∈ detectUnusedImports content tree ↔
      imp ∈ collectImports tree ∧ pyIn (baseNameOf imp) content = false := by
    intro imp
    simp [detectUnusedImports, List.mem_filter]
  refine ⟨hmem, ?_⟩
  intro hos hin
  have hchar : pyIn (baseNameOf "os") content = false := ((hmem "os").mp hin).2
  have hb : baseNameOf "os" = "os" := by decide
  rw [hb, hos] at hchar
  exact Bool.noConfusion hchar

/-- A file text containing `import os` and an unrelated second line. -/
def exC1WContent : String := "import os\nx = 1\n"

/-- Witness for C1 (amended): in a concrete file containing `import os`,
the import `os` is not flagged. -/
theorem C1_unused_import_heuristic_amended_witness :
    pyIn "os" exC1WContent = true
    ∧ "os" ∉ detectUnusedImports exC1WContent exC1Tree :=
  ⟨by decide, (C1_unused_import_heuristic_amended exC1WContent exC1Tree).2 (by decide)⟩

/-! ## C2 -/

/-- Modelled from the claim's words: per-function complexity as «1 plus one
increment for each If, For, While, or Try node within the function at any
depth, plus (number of operands − 1) for each short-circuit AND boolean
expression within it». -/
def claimedFunctionComplexity (funcNode : Ast) : Nat :=
  1 + ((walk funcNode).filter isBranchNode).length
    + ((walk funcNode).map andValuesCount).sum

/-- The function `def f(a, b): a and b` as parsed. -/
def exC2Fn : Ast :=
  .functionDef "f" 1 ["a", "b"] [.exprStmt (.boolOp .andOp [.nameExpr "a", .nameExpr "b"])]

/-- Counterexample to C2: for a function whose body is the single AND
expression `a and b`, the claimed formula yields 2, but the recorded
per-function score is 1 — `_calculate_function_complexity` has no `BoolOp`
case, so AND operands count only toward the file-level score. -/
theorem C2_counterexample :
    calculateFunctionComplexity exC2Fn = 1
    ∧ claimedFunctionComplexity exC2Fn = 2
    ∧ collectFunctions (.module [exC2Fn]) =
        [{ name := "f", line := 1, args := ["a", "b"], complexity := 1 }] := by
  have hw : walk exC2Fn = [exC2Fn,
      .exprStmt (.boolOp .andOp [.nameExpr "a", .nameExpr "b"]),
      .boolOp .andOp [.nameExpr "a", .nameExpr "b"],
      .nameExpr "a", .nameExpr "b"] := by
    simp [walk, walkGo, children, exC2Fn]
  have h1 : calculateFunctionComplexity exC2Fn = 1 := by
    rw [calculateFunctionComplexity, hw]
    decide
  refine ⟨h1, ?_, ?_⟩
  · rw [claimedFunctionComplexity, hw]
    decide
  · have hw2 : walk (.module [exC2Fn]) = [.module [exC2Fn], exC2Fn,
        .exprStmt (.boolOp .andOp [.nameExpr "a", .nameExpr "b"]),
        .boolOp .andOp [.nameExpr "a", .nameExpr "b"],
        .nameExpr "a", .nameExpr "b"] := by
      simp [walk, walkGo, children, exC2Fn]
    have h1' : calculateFunctionComplexity
        (.functionDef "f" 1 ["a", "b"]
          [.exprStmt (.boolOp .andOp [.nameExpr "a", .nameExpr "b"])]) = 1 := h1
    rw [collectFunctions, hw2]
    simp [exC2Fn, List.filterMap_cons, h1']

theorem foldl_functionComplexityStep (l : List Ast) (c : Nat) :
    l.foldl functionComplexityStep c = c + (l.filter isBranchNode).length := by
  induction l generalizing c with
  | nil => simp
  | cons a l ih =>
    rw [List.foldl_cons, ih]
    by_cases h : isBranchNode a = true <;>
      simp [functionComplexityStep, List.filter_cons, h] <;> omega

/-- C2 (amended): the per-function complexity score is 1 plus one increment
for each If, For, While, or Try node within the function at any depth;
short-circuit boolean expressions — AND as well as OR — contribute nothing
to the per-function score (the AND-operand increment exists only in the
file-level `_calculate_complexity`). -/
theorem C2_function_complexity_amended (funcNode : Ast) :
    calculateFunctionComplexity funcNode =
      1 + ((walk funcNode).filter isBranchNode).length := by
  rw [calculateFunctionComplexity, foldl_functionComplexityStep]

/-! ## C4 -/

/-- A file whose `stat` call raises a permission error. -/
def exC4BadStat : FileDesc :=
  { path := "locked.py", name := "locked.py", extension := ".py",
    statResult := .error "PermissionError: [Errno 13] Permission denied",
    readResult := .error "PermissionError: [Errno 13] Permission denied",
    parseResult := .error "unused" }

/-- Counterexample to C4: a failing `stat` is not absorbed — the exception
leaves the per-file step (`_analyze_file` calls `stat()` outside every
`try`) and aborts the whole run of `analyze_project`. -/
theorem C4_counterexample :
    analyzeFile exC4BadStat =
      Except.error "PermissionError: [Errno 13] Permission denied"
    ∧ analyzeProject [exC4BadStat] (fun _ => false) =
        Except.error "PermissionError: [Errno 13] Permission denied" := by
  constructor <;> rfl

/-- C4 (amended): once `stat` succeeds, every later per-file failure is
absorbed locally — a read or decode failure during source analysis and a
parse failure each degrade the record to an error-only record, a read
failure on a non-analyzable file degrades the preview to the fixed marker —
no exception leaves the per-file step, and the loop continues over the
remaining files. (A `stat` failure, by contrast, propagates and aborts the
scan; see the counterexample.) -/
theorem C4_error_absorption_amended (fd : FileDesc) (sz : Nat)
    (hstat : fd.statResult = Except.ok sz) :
    (∃ info, analyzeFile fd = Except.ok info)
    ∧ (∀ e, fd.extension = ".py" → fd.readResult = Except.error e →
        analyzeFile fd = Except.ok
          { size := sz, extension := ".py", type := "Python", error := some e })
    ∧ (∀ e content, fd.extension = ".py" → fd.readResult = Except.ok content →
        fd.parseResult = Except.error e →
        analyzeFile fd = Except.ok
          { size := sz, extension := ".py", type := "Python", error := some e })
    ∧ (∀ e, fd.extension ≠ ".py" → fd.readResult = Except.error e →
        analyzeFile fd = Except.ok
          { size := sz, extension := fd.extension, type := getFileType fd.extension,
            content_preview := some "[Binary or unreadable file]" })
    ∧ (∀ (n i : Nat) (cancel : Nat → Bool) (rest : List FileDesc) msgs recs observed,
        cancel i = false →
        analyzeLoop n cancel (i + 1) rest = Except.ok (msgs, recs, observed) →
        ∃ info, analyzeLoop n cancel i (fd :: rest) =
          Except.ok (s!"Analyzing {fd.name}... ({i + 1}/{n})" :: msgs,
                     (fd.path, info) :: recs, observed)) := by
  have hpyType : getFileType ".py" = "Python" := by decide
  have hex : ∃ info, analyzeFile fd = Except.ok info := by
    by_cases hpy : fd.extension = ".py"
    · refine ⟨analyzePythonFile fd
        { size := sz, extension := fd.extension, type := getFileType fd.extension }, ?_⟩
      simp [analyzeFile, hstat, hpy]
    · refine ⟨{ size := sz, extension := fd.extension, type := getFileType fd.extension,
                content_preview := some (contentPreviewOf fd) }, ?_⟩
      simp [analyzeFile, hstat, hpy]
  refine ⟨hex, ?_, ?_, ?_, ?_⟩
  · intro e hpy hread
    simp [analyzeFile, hstat, hpy, analyzePythonFile, hread, hpyType]
  · intro e content hpy hread hparse
    simp [analyzeFile, hstat, hpy, analyzePythonFile, hread, hparse, hpyType]
  · intro e hnpy hread
    simp [analyzeFile, hstat, hnpy, contentPreviewOf, hread]
  · intro n i cancel rest msgs recs observed hcancel hrest
    obtain ⟨info, hinfo⟩ := hex
    exact ⟨info, by simp [analyzeLoop, hcancel, hinfo, hrest]⟩

/-- A source file that reads fine but fails to parse. -/
def exC4ParseFail : FileDesc :=
  { path := "bad.py", name := "bad.py", extension := ".py",
    statResult := .ok 16, readResult := .ok "def broken(:\n",
    parseResult := .error "invalid syntax" }

/-- Witness for C4 (amended): a concrete parse failure degrades to the
error-only record without any exception leaving the per-file step. -/
theorem C4_error_absorption_amended_witness :
    exC4ParseFail.statResult = Except.ok 16
    ∧ analyzeFile exC4ParseFail = Except.ok
        { size := 16, extension := ".py", type := "Python",
          error := some "invalid syntax" } :=
  ⟨rfl, (C4_error_absorption_amended exC4ParseFail 16 rfl).2.2.1
    "invalid syntax" "def broken(:\n" rfl rfl rfl⟩

/-! ## C3 -/

/-- A readable text file. -/
def exC3FdA : FileDesc :=
  { path := "a.txt", name := "a.txt", extension := ".txt",
    statResult := .ok 3, readResult := .ok "abc", parseResult := .error "not parsed" }

/-- A second readable text file. -/
def exC3FdB : FileDesc :=
  { path := "b.txt", name := "b.txt", extension := ".txt",
    statResult := .ok 2, readResult := .ok "hi", parseResult := .error "not parsed" }

/-- A cancellation flag that is set from observation point 1 onwards. -/
def exC3Cancel (i : Nat) : Bool := decide (1 ≤ i)

/-- Counterexample to C3: cancelling a 2-file run at loop boundary 1 still
produces the four stage notifications after the observation and only then
the terminal cancelled notice — five further progress callbacks, not at
most one. -/
theorem C3_counterexample :
    analyzeLoop 2 exC3Cancel 0 [exC3FdA, exC3FdB] =
      Except.ok (["Analyzing a.txt... (1/2)"],
        [("a.txt", { size := 3, extension := ".txt", type := "Text",
                     content_preview := some "abc" })], true)
    ∧ postLoopMessages [exC3FdA, exC3FdB] exC3Cancel =
        ["Analyzing project architecture...", "Detecting potential issues...",
         "Generating improvement suggestions...", "Creating file-specific feedback...",
         "Analysis cancelled"]
    ∧ 1 < (postLoopMessages [exC3FdA, exC3FdB] exC3Cancel).length
    ∧ traceOf (analyzeProject [exC3FdA, exC3FdB] exC3Cancel) =
        some ["Starting project analysis...", "Analyzing a.txt... (1/2)",
              "Analyzing project architecture...", "Detecting potential issues...",
              "Generating improvement suggestions...", "Creating file-specific feedback...",
              "Analysis cancelled"]
    ∧ recsOf (analyzeProject [exC3FdA, exC3FdB] exC3Cancel) =
        some [("a.txt", { size := 3, extension := ".txt", type := "Text",
                          content_preview := some "abc" })] := by
  exact ⟨rfl, rfl, by decide, rfl, rfl⟩

theorem analyzeLoop_cancel_observed (n : Nat) (cancel : Nat → Bool) :
    ∀ (files : List FileDesc) (i k : Nat),
      k < files.length →
      (∀ j, j < k → cancel (i + j) = false) →
      cancel (i + k) = true →
      (∀ fd ∈ files, ∃ info, analyzeFile fd = Except.ok info) →
      ∃ msgs : List String, msgs.length = k ∧
        analyzeLoop n cancel i files =
          Except.ok (msgs, (files.take k).map (fun fd => (fd.path, analyzeFileD fd)), true) := by
  intro files
  induction files with
  | nil =>
    intro i k hk
    exact absurd hk (by simp)
  | cons fd rest ih =>
    intro i k hk hbefore hobs hok
    cases k with
    | zero =>
      have h0 : cancel i = true := by simpa using hobs
      exact ⟨[], rfl, by simp [analyzeLoop, h0]⟩
    | succ k =>
      have hc : cancel i = false := by
        have := hbefore 0 (Nat.succ_pos k)
        simpa using this
      obtain ⟨info, hinfo⟩ := hok fd (List.mem_cons_self fd rest)
      have hD : analyzeFileD fd = info := by simp [analyzeFileD, hinfo]
      obtain ⟨msgs, hlen, hloop⟩ := ih (i + 1) k (by simpa using hk)
        (fun j hj => by
          have := hbefore (j + 1) (by omega)
          have harith : i + (j + 1) = i + 1 + j := by omega
          rwa [harith] at this)
        (by
          have harith : i + (k + 1) = i + 1 + k := by omega
          rwa [harith] at hobs)
        (fun fd' hfd' => hok fd' (List.mem_cons_of_mem _ hfd'))
      refine ⟨s!"Analyzing {fd.name}... ({i + 1}/{n})" :: msgs, by simp [hlen], ?_⟩
      simp [analyzeLoop, hc, hinfo, hloop, List.take_succ_cons, hD]

/-- C3 (amended): when cancellation is first observed at per-file loop
boundary `k` (with more files remaining), the orchestrator stops the
per-file work after `k` files, but still submits the four stage
notifications and only then a single final cancelled notice — five further
callbacks in all, the last one reporting cancellation — and it returns the
partial result bundle assembled from the `k` records accumulated before the
observation. -/
theorem C3_cancellation_amended (files : List FileDesc) (cancel : Nat → Bool) (k : Nat)
    (hmono : ∀ i j, i ≤ j → cancel i = true → cancel j = true)
    (hk : k < files.length) (hobs : cancel k = true)
    (hbefore : ∀ j, j < k → cancel j = false)
    (hok : ∀ fd ∈ files, ∃ info, analyzeFile fd = Except.ok info) :
    ∃ loopMsgs : List String,
      loopMsgs.length = k
      ∧ analyzeProject files cancel =
          Except.ok ("Starting project analysis..." :: loopMsgs
              ++ (stageMessages ++ ["Analysis cancelled"]),
            mkBundle ((files.take k).map (fun fd => (fd.path, analyzeFileD fd)))) := by
  obtain ⟨msgs, hlen, hloop⟩ := analyzeLoop_cancel_observed files.length cancel files 0 k
    hk (fun j hj => by simpa using hbefore j hj) (by simpa using hobs) hok
  have hfin : cancel files.length = true := hmono k files.length (Nat.le_of_lt hk) hobs
  refine ⟨msgs, hlen, ?_⟩
  simp [analyzeProject, hloop, postLoopMessages, hfin]

/-- Witness for C3 (amended) at the concrete 2-file run cancelled at
boundary 1. -/
theorem C3_cancellation_amended_witness :
    exC3Cancel 1 = true
    ∧ ∃ loopMsgs : List String,
        loopMsgs.length = 1
        ∧ analyzeProject [exC3FdA, exC3FdB] exC3Cancel =
            Except.ok ("Starting project analysis..." :: loopMsgs
                ++ (stageMessages ++ ["Analysis cancelled"]),
              mkBundle ((([exC3FdA, exC3FdB]).take 1).map
                (fun fd => (fd.path, analyzeFileD fd)))) := by
  refine ⟨rfl, ?_⟩
  apply C3_cancellation_amended [exC3FdA, exC3FdB] exC3Cancel 1
  · intro i j hij hi
    simp [exC3Cancel] at *
    omega
  · decide
  · rfl
  · intro j hj
    have : j = 0 := by omega
    subst this
    rfl
  · intro fd hfd
    simp only [List.mem_cons, List.not_mem_nil, or_false] at hfd
    rcases hfd with rfl | rfl
    · exact ⟨_, rfl⟩
    · exact ⟨_, rfl⟩
